import Mathlib

set_option linter.all false

set_option maxRecDepth 8192

/-!
Shallow embedding of the interaction engine of the boardgame_manager repository
(crate boardgame-cli, files app.rs and ui.rs). Machine integers of the source
are modelled as Nat (u16 screen coordinates, millisecond timestamps) and Int
(i32 record fields); HashMap is modelled as an association list whose insert
replaces an existing key in place and otherwise appends; Instant is modelled as
an explicit millisecond timestamp passed to every operation that reads a clock;
the Rust expect calls that can fail are modelled by an explicit panicked
outcome. The five fn-pointer click handlers used by the program are modelled as
a closed enum dispatched in one match, following the design note of the spec.
-/

/-- A screen mode of the application (enum Mode in app.rs). -/
inductive Mode
  | Main
  | Adding
  | Quitting
deriving DecidableEq, Repr

/-- An axis-aligned rectangle in terminal cell coordinates (ratatui Rect). -/
structure Rect where
  x : Nat
  y : Nat
  width : Nat
  height : Nat
deriving DecidableEq, Repr

/-- Point containment test of ratatui, used by app.rs through area.contains. -/
def Rect.contains (r : Rect) (p : Nat × Nat) : Bool :=
  decide (r.x ≤ p.1) && decide (p.1 < r.x + r.width) &&
    decide (r.y ≤ p.2) && decide (p.2 < r.y + r.height)

/-- The key codes distinguished by on_key in app.rs; every other crossterm key
code behaves uniformly and is modelled by the constructor other carrying its
Debug text. -/
inductive KeyCode
  | enter
  | tab
  | backspace
  | char (c : Char)
  | other (name : String)
deriving DecidableEq, Repr

/-- The five click-handler function pointers that the program ever stores in
the buttons map (App::quit, App::prev_mode, App::go_to_quit, App::go_to_add_new,
App::add_new_boardgame), modelled as a closed enum. -/
inductive BtnAction
  | goToQuit
  | goToAddNew
  | prevMode
  | quit
  | addNewBoardgame
deriving DecidableEq, Repr

/-- The record of boardgame-core db.rs. -/
structure Boardgame where
  id : Option Int
  name : String
  min_players : Int
  max_players : Int
  play_time_minutes : Int
  description : String
deriving DecidableEq, Repr

/-- HashMap insert: replace the value of an existing key, otherwise add the
binding. The association list fixes one iteration order for the unordered
Rust map. -/
def insertKV {α β : Type} [DecidableEq α] (m : List (α × β)) (k : α) (v : β) :
    List (α × β) :=
  match m with
  | [] => [(k, v)]
  | (k0, v0) :: rest =>
      if k0 = k then (k, v) :: rest else (k0, v0) :: insertKV rest k v

/-- HashMap lookup over the association-list model. -/
def lookupKV {α β : Type} [DecidableEq α] (m : List (α × β)) (k : α) :
    Option β :=
  match m with
  | [] => none
  | (k0, v0) :: rest => if k0 = k then some v0 else lookupKV rest k

/-- AppState of app.rs: quit flag, input regions, field buffers, focus. -/
structure AppState where
  should_quit : Bool
  inputs : List (Rect × String)
  input_state : List (String × String)
  selected_input : Option String
deriving DecidableEq, Repr

/-- App of app.rs. The db handle is external and is not part of the state; the
result of each store call is passed in explicitly. The field created is a ghost
trace of the records passed to the create call of the store, used to observe
that create was invoked and with which record. message_timeout is in
milliseconds (Duration::from_secs 3). -/
structure App where
  modes : List Mode
  state : AppState
  buttons : List (Rect × BtnAction)
  messages : List (String × Nat)
  cursor : Option (Nat × Nat)
  message_timeout : Nat
  debug : Bool
  created : List Boardgame
deriving DecidableEq, Repr

/-- Outcome of an operation that may panic through expect. -/
inductive StepOut
  | ok (a : App)
  | panicked (msg : String)
deriving DecidableEq, Repr

/-- App::new of app.rs (the db open is external; its own expect on failure to
open the database is outside the modelled state). -/
def App.new : App :=
  { modes := [Mode.Main]
    state :=
      { should_quit := false
        inputs := []
        input_state := []
        selected_input := none }
    buttons := []
    messages := []
    cursor := none
    message_timeout := 3000
    debug := true
    created := [] }

/-- clear_state of app.rs: empties buttons, inputs, input_state and the
selection. It does not touch the message queue. -/
def clear_state (a : App) : App :=
  { a with
    buttons := []
    state :=
      { a.state with inputs := [], input_state := [], selected_input := none } }

/-- switch_mode of app.rs: push the mode, then clear_state. -/
def switch_mode (a : App) (m : Mode) : App :=
  clear_state { a with modes := a.modes ++ [m] }

/-- prev_mode of app.rs: only when more than one mode is on the stack, pop the
top and clear_state; otherwise do nothing at all. -/
def prev_mode (a : App) : App :=
  if 1 < a.modes.length then clear_state { a with modes := a.modes.dropLast }
  else a

/-- get_prev_mode of app.rs: the second-from-top mode when it exists. -/
def get_prev_mode (a : App) : Option Mode :=
  if h : 1 < a.modes.length then
    some (a.modes.get ⟨a.modes.length - 2, by omega⟩)
  else none

/-- get_curr_mode of app.rs: the top of the mode stack. -/
def get_curr_mode (a : App) : Option Mode :=
  a.modes.getLast?

/-- send_message of app.rs: append (msg, Instant::now()) at the back of the
queue; now is the explicit clock value. -/
def send_message (a : App) (msg : String) (now : Nat) : App :=
  { a with messages := a.messages ++ [(msg, now)] }

/-- clear_message of app.rs: pop the front of the queue. -/
def clear_message (a : App) : App :=
  { a with messages := a.messages.tail }

/-- check_message_timeout of app.rs: when the queue has a front whose age
now - created reached message_timeout, pop that front; otherwise no change. -/
def check_message_timeout (a : App) (now : Nat) : App :=
  match a.messages with
  | [] => a
  | (_, ts) :: rest =>
      if a.message_timeout ≤ now - ts then { a with messages := rest } else a

/-- update_cursor of app.rs. -/
def update_cursor (a : App) (x y : Nat) : App :=
  { a with cursor := some (x, y) }

/-- go_to_quit of app.rs. -/
def go_to_quit (a : App) : App :=
  switch_mode a Mode.Quitting

/-- go_to_add_new of app.rs. -/
def go_to_add_new (a : App) : App :=
  switch_mode a Mode.Adding

/-- quit of app.rs. -/
def quit (a : App) : App :=
  { a with state := { a.state with should_quit := true } }

/-- set the focus selection; used by on_mouse_click. -/
def set_selected (a : App) (s : Option String) : App :=
  { a with state := { a.state with selected_input := s } }

/-- A single quote character, used in message texts built by format strings of
the source. -/
def squote : String := String.mk [Char.ofNat 39]

/-- Debug text of a crossterm key code, approximating the derive(Debug)
output used by format in the source; the exact text is presentation detail. -/
def keyDebug : KeyCode → String
  | KeyCode.enter => "Enter"
  | KeyCode.tab => "Tab"
  | KeyCode.backspace => "Backspace"
  | KeyCode.char c => "Char(" ++ squote ++ String.mk [c] ++ squote ++ ")"
  | KeyCode.other s => s

/-- The unhandled-key message text of on_key in app.rs. -/
def unhandledMsg (k : KeyCode) : String :=
  "Unhandled key: " ++ keyDebug k

/-- Debug text of an optional mode, for the debug messages. -/
def optionModeDebug : Option Mode → String
  | none => "None"
  | some Mode.Main => "Some(Main)"
  | some Mode.Adding => "Some(Adding)"
  | some Mode.Quitting => "Some(Quitting)"

/-- The Rust code formats the input_state and inputs HashMaps with Debug, whose
iteration order is unspecified across runs; the exact text is abstracted here
as the entry count. No claim depends on this text. -/
def debugMapText (n : Nat) : String :=
  "map with " ++ toString n ++ " entries"

/-- send_debug_message of app.rs: three messages in order. -/
def send_debug_message (a : App) (now : Nat) : App :=
  let a1 := send_message a ("previous_mode: " ++ optionModeDebug (get_prev_mode a)) now
  let a2 := send_message a1 ("input state: " ++ debugMapText a.state.input_state.length) now
  send_message a2 ("inputs: " ++ debugMapText a.state.inputs.length) now

/-- on_key of app.rs. While an input is selected the keystroke edits that
buffer (the buffer is inserted empty first when absent, so the expect on the
fresh lookup never fires); otherwise the global keys q, Backspace and d (when
debug) are handled and anything else is reported as unhandled. -/
def on_key (a : App) (key : KeyCode) (now : Nat) : App :=
  match a.state.selected_input with
  | some input =>
      let st :=
        if (lookupKV a.state.input_state input).isSome then a.state.input_state
        else insertKV a.state.input_state input ""
      let buf := (lookupKV st input).getD ""
      match key with
      | KeyCode.enter =>
          { a with state := { a.state with input_state := st, selected_input := none } }
      | KeyCode.tab =>
          { a with state := { a.state with input_state := st } }
      | KeyCode.backspace =>
          { a with state := { a.state with input_state := insertKV st input (buf.dropRight 1) } }
      | KeyCode.char c =>
          { a with state := { a.state with input_state := insertKV st input (buf.push c) } }
      | k =>
          send_message { a with state := { a.state with input_state := st } }
            (unhandledMsg k) now
  | none =>
      match key with
      | KeyCode.char c =>
          if c = 'q' then go_to_quit a
          else if c = 'd' ∧ a.debug then send_debug_message a now
          else send_message a (unhandledMsg (KeyCode.char c)) now
      | KeyCode.backspace => prev_mode a
      | k => send_message a (unhandledMsg k) now

/-- The input-region scan of on_mouse_click: the loop overwrites the found key
on every containing region without breaking, so the last containing
registration in iteration order wins. -/
def find_input (l : List (Rect × String)) (x y : Nat) : Option String :=
  match l with
  | [] => none
  | (r, k) :: rest =>
      match find_input rest x y with
      | some k2 => some k2
      | none => if r.contains (x, y) then some k else none

/-- The button scan of on_mouse_click: the loop breaks at the first containing
region in iteration order. -/
def find_button (l : List (Rect × BtnAction)) (x y : Nat) : Option BtnAction :=
  match l with
  | [] => none
  | (r, f) :: rest =>
      if r.contains (x, y) then some f else find_button rest x y

/-- The string-constant module boardgame_core::strings is imported by app.rs
but is not present under src. Modelled from the spec: the submission logic
reads the name, min players, max players, play time and description buffers by
field id, and the parse-failure message of the end-to-end scenario quotes the
field id min players, fixing the lower-case wording of the constants. -/
def BG_NAME : String := "name"

/-- Modelled from the spec: field id of the description buffer, from
boardgame_core::strings which is not present under src. -/
def BG_DESCRIPTION : String := "description"

/-- Modelled from the spec: field id of the min players buffer, from
boardgame_core::strings which is not present under src; the spec scenario
message Bad value for min players quotes it. -/
def BG_MIN_PLAYERS : String := "min players"

/-- Modelled from the spec: field id of the max players buffer, from
boardgame_core::strings which is not present under src. -/
def BG_MAX_PLAYERS : String := "max players"

/-- Modelled from the spec: field id of the play time buffer, from
boardgame_core::strings which is not present under src. -/
def BG_PLAY_TIME : String := "play time"

/-- The panic text of the expect calls in add_new_boardgame. -/
def panicMsg (field : String) : String :=
  squote ++ field ++ squote ++ " not in input_state"

/-- The error text str::parse::<i32> produces on a non-digit character. -/
def invalidDigitMsg : String := "invalid digit found in string"

/-- The head of the parse-failure message of add_new_boardgame. -/
def badValueHead (field : String) : String :=
  "Bad value for " ++ squote ++ field ++ squote ++ ":"

/-- The full parse-failure message of add_new_boardgame. -/
def badValueMsg (field e : String) : String :=
  badValueHead field ++ " " ++ e

/-- The success message of add_new_boardgame. -/
def successMsg : String := "Successfully added new boardgame!"

/-- str::parse::<i32> of Rust: an optional sign followed by at least one
decimal digit, with the i32 range check; the error strings are the ParseIntError
texts. -/
def parseI32 (s : String) : Except String Int :=
  let chars := s.toList
  let signed :=
    match chars with
    | c :: rest =>
        if c = '-' then (true, rest)
        else if c = '+' then (false, rest) else (false, chars)
    | [] => (false, chars)
  if chars.isEmpty then Except.error "cannot parse integer from empty string"
  else if signed.2.isEmpty then Except.error invalidDigitMsg
  else if signed.2.any (fun c => !c.isDigit) then Except.error invalidDigitMsg
  else
    let n : Nat := signed.2.foldl (fun acc c => acc * 10 + (c.toNat - 48)) 0
    let v : Int := if signed.1 then -(n : Int) else (n : Int)
    if v > 2147483647 then Except.error "number too large to fit in target type"
    else if v < -2147483648 then
      Except.error "number too small to fit in target type"
    else Except.ok v

/-- add_new_boardgame of app.rs. Each buffer read uses expect, so a missing
buffer panics with the format text of the source. The fields min players, max
players and play time are parsed in that order and the first parse failure is
reported as a message and stops the submission. dbCreate is the external store
call create of boardgame-core; the record passed to it is also recorded on the
ghost trace created. On store success the app switches to Main (a push) and the
success message is sent; on store failure the error is reported as a message. -/
def add_new_boardgame (dbCreate : Boardgame → Except String Int) (a : App)
    (now : Nat) : StepOut :=
  match lookupKV a.state.input_state BG_NAME with
  | none => StepOut.panicked (panicMsg BG_NAME)
  | some name =>
  match lookupKV a.state.input_state BG_DESCRIPTION with
  | none => StepOut.panicked (panicMsg BG_DESCRIPTION)
  | some description =>
  match lookupKV a.state.input_state BG_MIN_PLAYERS with
  | none => StepOut.panicked (panicMsg BG_MIN_PLAYERS)
  | some minS =>
  match parseI32 minS with
  | Except.error e => StepOut.ok (send_message a (badValueMsg BG_MIN_PLAYERS e) now)
  | Except.ok vmin =>
  match lookupKV a.state.input_state BG_MAX_PLAYERS with
  | none => StepOut.panicked (panicMsg BG_MAX_PLAYERS)
  | some maxS =>
  match parseI32 maxS with
  | Except.error e => StepOut.ok (send_message a (badValueMsg BG_MAX_PLAYERS e) now)
  | Except.ok vmax =>
  match lookupKV a.state.input_state BG_PLAY_TIME with
  | none => StepOut.panicked (panicMsg BG_PLAY_TIME)
  | some playS =>
  match parseI32 playS with
  | Except.error e => StepOut.ok (send_message a (badValueMsg BG_PLAY_TIME e) now)
  | Except.ok vplay =>
  let bg : Boardgame :=
    { id := none
      name := name
      min_players := vmin
      max_players := vmax
      play_time_minutes := vplay
      description := description }
  let a1 := { a with created := a.created ++ [bg] }
  match dbCreate bg with
  | Except.ok _ => StepOut.ok (send_message (switch_mode a1 Mode.Main) successMsg now)
  | Except.error e =>
      StepOut.ok (send_message a1 ("Error adding boardgame: " ++ e) now)

/-- Dispatch of the stored click handlers (the single match replacing the fn
pointers, per the design note of the spec). -/
def runAction (dbCreate : Boardgame → Except String Int) (act : BtnAction)
    (a : App) (now : Nat) : StepOut :=
  match act with
  | BtnAction.goToQuit => StepOut.ok (go_to_quit a)
  | BtnAction.goToAddNew => StepOut.ok (go_to_add_new a)
  | BtnAction.prevMode => StepOut.ok (prev_mode a)
  | BtnAction.quit => StepOut.ok (quit a)
  | BtnAction.addNewBoardgame => add_new_boardgame dbCreate a now

/-- on_mouse_click of app.rs: scan the input regions (last containing wins);
on a hit, focus that field and return without consulting the buttons. On a
miss, clear the focus, scan the buttons (first containing wins) and invoke the
found handler on the unfocused state, if any. -/
def on_mouse_click (dbCreate : Boardgame → Except String Int) (a : App)
    (x y : Nat) (now : Nat) : StepOut :=
  match find_input a.state.inputs x y with
  | some key => StepOut.ok (set_selected a (some key))
  | none =>
      let a2 := set_selected a none
      match find_button a2.buttons x y with
      | some f => runAction dbCreate f a2 now
      | none => StepOut.ok a2

/-- add_button of app.rs: HashMap insert into the button registry. -/
def add_button (a : App) (area : Rect) (f : BtnAction) : App :=
  { a with buttons := insertKV a.buttons area f }

/-- add_input of app.rs: HashMap insert into the input registry (the
commented-out eager buffer creation of the source is absent). -/
def add_input (a : App) (area : Rect) (key : String) : App :=
  { a with state := { a.state with inputs := insertKV a.state.inputs area key } }

/-- get_boardgames of app.rs: the external list_all result is passed in; on
failure the error is reported as a message and the empty list is returned. -/
def get_boardgames (listResult : Except String (List Boardgame)) (a : App)
    (now : Nat) : App × List Boardgame :=
  match listResult with
  | Except.ok bs => (a, bs)
  | Except.error e => (send_message a ("Error getting boardgames: " ++ e) now, [])

/-- add_title of ui.rs: registers one button in the right slot of the title
row, a quit button on the Main screen and a back (prev_mode) button
elsewhere. -/
def add_title (a : App) (area : Rect) (quitFlag : Bool) : App :=
  add_button a area (if quitFlag then BtnAction.goToQuit else BtnAction.prevMode)

/-- render_main of ui.rs, restricted to its effect on the engine state: the
title registers the quit button, the Add Boardgame button registers
go_to_add_new, and get_boardgames may report a store error as a message.
Nothing is cleared first. rTitleBtn and rAdd are the rectangles the layout
computes for this frame. -/
def render_main (rTitleBtn rAdd : Rect) (listResult : Except String (List Boardgame))
    (a : App) (now : Nat) : App :=
  let a1 := add_title a rTitleBtn true
  let a2 := add_button a1 rAdd BtnAction.goToAddNew
  (get_boardgames listResult a2 now).1

/-- render_adding of ui.rs, restricted to its effect on the engine state: the
title registers the back button, the three labelled input boxes register the
input regions Name, Min players and Max players in that order, and the Add
button registers add_new_boardgame. Nothing is cleared first. -/
def render_adding (rBack rName rMin rMax rAdd : Rect) (a : App) : App :=
  let a1 := add_title a rBack false
  let a2 := add_input a1 rName "Name"
  let a3 := add_input a2 rMin "Min players"
  let a4 := add_input a3 rMax "Max players"
  add_button a4 rAdd BtnAction.addNewBoardgame

/-- render_quitting of ui.rs, restricted to its effect on the engine state:
the title registers the back button, Yes registers quit and No registers
prev_mode. Nothing is cleared first. -/
def render_quitting (rBack rYes rNo : Rect) (a : App) : App :=
  let a1 := add_title a rBack false
  let a2 := add_button a1 rYes BtnAction.quit
  add_button a2 rNo BtnAction.prevMode

/-- One iteration step of the run loop of app.rs: ui.render dispatches on
get_curr_mode to the draw routine of the current mode (with the rectangles the
layout computes for that frame and the external store result), then the
message expiry check runs, then one polled event is routed through on_key or
on_mouse_click or update_cursor. A mouse click is a step only when it does not
panic. -/
inductive Step (dbCreate : Boardgame → Except String Int) : App → App → Prop
  | renderMain (a : App) (now : Nat) (r1 r2 : Rect)
      (lres : Except String (List Boardgame))
      (h : get_curr_mode a = some Mode.Main) :
      Step dbCreate a (render_main r1 r2 lres a now)
  | renderAdding (a : App) (r1 r2 r3 r4 r5 : Rect)
      (h : get_curr_mode a = some Mode.Adding) :
      Step dbCreate a (render_adding r1 r2 r3 r4 r5 a)
  | renderQuitting (a : App) (r1 r2 r3 : Rect)
      (h : get_curr_mode a = some Mode.Quitting) :
      Step dbCreate a (render_quitting r1 r2 r3 a)
  | expire (a : App) (now : Nat) : Step dbCreate a (check_message_timeout a now)
  | key (a : App) (k : KeyCode) (now : Nat) : Step dbCreate a (on_key a k now)
  | mouse (a b : App) (x y now : Nat)
      (h : on_mouse_click dbCreate a x y now = StepOut.ok b) :
      Step dbCreate a b
  | move (a : App) (x y : Nat) : Step dbCreate a (update_cursor a x y)

/-- The states the engine can reach from App.new through loop steps. -/
inductive Reachable (dbCreate : Boardgame → Except String Int) : App → Prop
  | init : Reachable dbCreate App.new
  | step (a b : App) (ha : Reachable dbCreate a) (hs : Step dbCreate a b) :
      Reachable dbCreate b

/-- A mode-stack operation: a switch_mode push or a prev_mode pop. -/
inductive StackOp
  | push (m : Mode)
  | pop
deriving DecidableEq, Repr

/-- Apply one stack operation. -/
def applyOp (a : App) (op : StackOp) : App :=
  match op with
  | StackOp.push m => switch_mode a m
  | StackOp.pop => prev_mode a

/-- Apply a sequence of stack operations in order. -/
def applyOps (a : App) : List StackOp → App
  | [] => a
  | op :: ops => applyOps (applyOp a op) ops

/-- The content of the buffer of field f, empty when absent. -/
def getBuf (a : App) (f : String) : String :=
  (lookupKV a.state.input_state f).getD ""

/-- Apply a sequence of key presses at clock 0. -/
def typeKeys (a : App) (ks : List KeyCode) : App :=
  ks.foldl (fun b k => on_key b k 0) a

/-- A store whose create call always succeeds with id 1. -/
def crOk : Boardgame → Except String Int := fun _ => Except.ok 1

/-- Adding-mode state with all five submission buffers filled and parseable. -/
def c1App : App :=
  { App.new with
    modes := [Mode.Main, Mode.Adding]
    state :=
      { App.new.state with
        input_state :=
          [(BG_NAME, "Catan"), (BG_DESCRIPTION, "fun game"),
            (BG_MIN_PLAYERS, "3"), (BG_MAX_PLAYERS, "4"), (BG_PLAY_TIME, "60")] } }

/-- The record the filled c1App buffers parse to. -/
def c1Bg : Boardgame :=
  { id := none
    name := "Catan"
    min_players := 3
    max_players := 4
    play_time_minutes := 60
    description := "fun game" }

/-- The app produced by submitting c1App against the always-ok store. -/
def c1Result : App :=
  match add_new_boardgame crOk c1App 0 with
  | StepOut.ok b => b
  | StepOut.panicked _ => App.new

/-- A state with one pending message, to observe a mode transition on. -/
def c2App : App :=
  { App.new with messages := [("pending notice", 0)] }

/-- Adding-mode state holding only the name and min players buffers, exactly
the buffers the claimed scenario mentions. -/
def c5App : App :=
  { App.new with
    modes := [Mode.Main, Mode.Adding]
    state :=
      { App.new.state with
        input_state := [(BG_NAME, "Catan"), (BG_MIN_PLAYERS, "x")] } }

/-- Adding-mode state with the description buffer also present and min players
non-numeric. -/
def c5AppWithDescription : App :=
  { App.new with
    modes := [Mode.Main, Mode.Adding]
    state :=
      { App.new.state with
        input_state :=
          [(BG_NAME, "Catan"), (BG_DESCRIPTION, "fun game"),
            (BG_MIN_PLAYERS, "x")] } }

/-- The intermediate state of the reachability trace: Main rendered with the
Add Boardgame button at the origin cell. -/
def c4AfterMain : App :=
  render_main { x := 9, y := 9, width := 1, height := 1 }
    { x := 0, y := 0, width := 1, height := 1 } (Except.ok []) App.new 0

/-- The state after clicking the Add Boardgame button: Adding mode, all
transient state cleared. -/
def c4Adding : App :=
  switch_mode (set_selected c4AfterMain none) Mode.Adding

/-- The Adding screen rendered: back button, the three input boxes and the Add
submit button registered at disjoint cells. -/
def c4Rendered : App :=
  render_adding { x := 20, y := 0, width := 1, height := 1 }
    { x := 0, y := 1, width := 1, height := 1 }
    { x := 0, y := 2, width := 1, height := 1 }
    { x := 0, y := 3, width := 1, height := 1 }
    { x := 0, y := 4, width := 1, height := 1 } c4Adding

/-- A state focused on the Name field with buffer ab already present. -/
def c9App : App :=
  { App.new with
    modes := [Mode.Main, Mode.Adding]
    state :=
      { App.new.state with
        input_state := [("Name", "ab")]
        selected_input := some "Name" } }

/-- A state focused on the Name field with no buffer yet. -/
def c8App : App :=
  { App.new with
    modes := [Mode.Main, Mode.Adding]
    state := { App.new.state with selected_input := some "Name" } }

/-- A state with one registered input region covering the cells near the
origin. -/
def c7App : App :=
  { App.new with
    state :=
      { App.new.state with
        inputs := [({ x := 0, y := 0, width := 2, height := 2 }, "Name")] } }

/-- Two messages pushed at 0 ms and 1000 ms, as in the expiry scenario. -/
def c10Q : App :=
  send_message (send_message App.new "m1" 0) "m2" 1000

/-- Build the record add_new_boardgame passes to the store create call. -/
def mkBg (nm ds : String) (vmn vmx vpt : Int) : Boardgame :=
  { id := none
    name := nm
    min_players := vmn
    max_players := vmx
    play_time_minutes := vpt
    description := ds }

/-- Looking up the key just inserted finds the inserted value. -/
theorem lookupKV_insert_self {α β : Type} [DecidableEq α] (m : List (α × β))
    (k : α) (v : β) : lookupKV (insertKV m k v) k = some v := by
  induction m with
  | nil => simp [insertKV, lookupKV]
  | cons p rest ih =>
      obtain ⟨k0, v0⟩ := p
      by_cases h : k0 = k
      · simp [insertKV, lookupKV, h]
      · simp [insertKV, lookupKV, h, ih]

/-- Inserting one key does not change the lookup of another key. -/
theorem lookupKV_insert_ne {α β : Type} [DecidableEq α] (m : List (α × β))
    (k k2 : α) (v : β) (h : k2 ≠ k) :
    lookupKV (insertKV m k v) k2 = lookupKV m k2 := by
  induction m with
  | nil => simp [insertKV, lookupKV, Ne.symm h]
  | cons p rest ih =>
      obtain ⟨k0, v0⟩ := p
      by_cases h0 : k0 = k
      · subst h0
        simp [insertKV, lookupKV, Ne.symm h, h]
      · by_cases h2 : k0 = k2 <;>
          simp [insertKV, lookupKV, h0, h2, h, ih]

/-- A successful input scan returns the field of some containing registered
region. -/
theorem find_input_some_mem (l : List (Rect × String)) (x y : Nat) (k : String)
    (h : find_input l x y = some k) :
    ∃ r, (r, k) ∈ l ∧ r.contains (x, y) = true := by
  induction l with
  | nil => simp [find_input] at h
  | cons p rest ih =>
      obtain ⟨r0, k0⟩ := p
      cases hrest : find_input rest x y with
      | some k2 =>
          simp only [find_input, hrest, Option.some.injEq] at h
          subst h
          obtain ⟨r, hm, hc⟩ := ih hrest
          exact ⟨r, List.mem_cons_of_mem _ hm, hc⟩
      | none =>
          simp only [find_input, hrest] at h
          by_cases hc : r0.contains (x, y) = true
          · rw [if_pos hc] at h
            have h2 : k0 = k := Option.some.inj h
            subst h2
            exact ⟨r0, List.mem_cons_self _ _, hc⟩
          · rw [if_neg hc] at h
            cases h

/-- When some registered input region contains the point, the input scan
finds a field. -/
theorem find_input_isSome_of_mem (l : List (Rect × String)) (x y : Nat)
    (r : Rect) (k : String) (hm : (r, k) ∈ l)
    (hc : r.contains (x, y) = true) : (find_input l x y).isSome = true := by
  induction l with
  | nil => simp at hm
  | cons p rest ih =>
      obtain ⟨r0, k0⟩ := p
      cases hrest : find_input rest x y with
      | some k2 => simp [find_input, hrest]
      | none =>
          rcases List.mem_cons.mp hm with h | h
          · cases h
            simp [find_input, hrest, hc]
          · have := ih h
            rw [hrest] at this
            simp at this

/-- When the input scan finds nothing, no registered input region contains
the point. -/
theorem find_input_none_forall (l : List (Rect × String)) (x y : Nat)
    (h : find_input l x y = none) :
    ∀ r k, (r, k) ∈ l → r.contains (x, y) = false := by
  intro r k hm
  by_contra hc
  have hc2 : r.contains (x, y) = true := by
    cases h2 : r.contains (x, y)
    · exact absurd h2 hc
    · rfl
  have := find_input_isSome_of_mem l x y r k hm hc2
  rw [h] at this
  simp at this

/-- A successful button scan returns the handler of some containing
registered region. -/
theorem find_button_some_mem (l : List (Rect × BtnAction)) (x y : Nat)
    (f : BtnAction) (h : find_button l x y = some f) :
    ∃ r, (r, f) ∈ l ∧ r.contains (x, y) = true := by
  induction l with
  | nil => simp [find_button] at h
  | cons p rest ih =>
      obtain ⟨r0, f0⟩ := p
      simp only [find_button] at h
      by_cases hc : r0.contains (x, y) = true
      · rw [if_pos hc] at h
        have h2 : f0 = f := Option.some.inj h
        subst h2
        exact ⟨r0, List.mem_cons_self _ _, hc⟩
      · rw [if_neg hc] at h
        obtain ⟨r, hm, hcr⟩ := ih h
        exact ⟨r, List.mem_cons_of_mem _ hm, hcr⟩

/-- When the button scan finds nothing, no registered button region contains
the point. -/
theorem find_button_none_forall (l : List (Rect × BtnAction)) (x y : Nat)
    (h : find_button l x y = none) :
    ∀ r f, (r, f) ∈ l → r.contains (x, y) = false := by
  induction l with
  | nil => intro r f hm; simp at hm
  | cons p rest ih =>
      obtain ⟨r0, f0⟩ := p
      simp only [find_button] at h
      by_cases hc : r0.contains (x, y) = true
      · rw [if_pos hc] at h
        cases h
      · rw [if_neg hc] at h
        intro r f hm
        rcases List.mem_cons.mp hm with h2 | h2
        · cases h2
          simpa using hc
        · exact ih h r f h2

/-- The buffer map after the ensure-present step of on_key holds the old
content of the focused field, empty when the buffer was absent. -/
theorem lookup_ensure (is : List (String × String)) (f : String) :
    lookupKV (if (lookupKV is f).isSome then is else insertKV is f "") f
      = some ((lookupKV is f).getD "") := by
  cases h : lookupKV is f with
  | some v => simp [h]
  | none => simp [h, lookupKV_insert_self]

/-- One stack operation keeps the mode stack non-empty. -/
theorem applyOp_modes_pos (a : App) (op : StackOp)
    (h : 1 ≤ a.modes.length) : 1 ≤ (applyOp a op).modes.length := by
  cases op with
  | push m => simp [applyOp, switch_mode, clear_state]
  | pop =>
      simp only [applyOp, prev_mode]
      split
      · next hlen => simp [clear_state, List.length_dropLast]; omega
      · exact h

/-- A sequence of stack operations keeps the mode stack non-empty. -/
theorem applyOps_modes_pos (ops : List StackOp) :
    ∀ a : App, 1 ≤ a.modes.length → 1 ≤ (applyOps a ops).modes.length := by
  induction ops with
  | nil => intro a h; exact h
  | cons op ops ih => intro a h; exact ih _ (applyOp_modes_pos a op h)

/-- C6: for every sequence of switch_mode pushes and prev_mode pops applied to
the engine constructed with the single mode Main, the mode stack holds at
least one mode at every point, and prev_mode on a one-element stack leaves the
app, hence the stack, unchanged. -/
theorem c6_modestack_never_empty :
    (∀ a : App, a.modes.length = 1 → prev_mode a = a)
    ∧ ∀ ops : List StackOp, 1 ≤ (applyOps App.new ops).modes.length := by
  constructor
  · intro a h
    simp [prev_mode, h]
  · intro ops
    exact applyOps_modes_pos ops App.new (by decide)

/-- C6 witness: prev_mode on the freshly constructed engine is a no-op, and a
concrete push/pop/pop sequence leaves a non-empty stack. -/
theorem c6_modestack_never_empty_witness :
    prev_mode App.new = App.new
    ∧ 1 ≤ (applyOps App.new
        [StackOp.push Mode.Adding, StackOp.pop, StackOp.pop]).modes.length :=
  ⟨c6_modestack_never_empty.1 App.new (by decide),
    c6_modestack_never_empty.2 [StackOp.push Mode.Adding, StackOp.pop, StackOp.pop]⟩

/-- C10: the expiry check removes the front message exactly when the queue is
non-empty and the age of the front reached the timeout, and removes only that
front; send_message appends at the back; in the concrete scenario with m1
pushed at 0 ms and m2 at 1000 ms, the check at 3500 ms removes only m1 and the
check at 4600 ms then removes m2 (timeout 3000 ms). -/
theorem c10_message_expiry_fifo (a : App) (now ts : Nat) (m : String)
    (rest : List (String × Nat)) :
    ((a.messages = [] → check_message_timeout a now = a)
      ∧ (a.messages = (m, ts) :: rest →
          (a.message_timeout ≤ now - ts →
            (check_message_timeout a now).messages = rest)
          ∧ (now - ts < a.message_timeout → check_message_timeout a now = a)))
    ∧ (send_message a m now).messages = a.messages ++ [(m, now)]
    ∧ (check_message_timeout c10Q 3500).messages = [("m2", 1000)]
    ∧ (check_message_timeout (check_message_timeout c10Q 3500) 4600).messages
        = [] := by
  refine ⟨⟨?_, ?_⟩, rfl, by decide, by decide⟩
  · intro h
    simp [check_message_timeout, h]
  · intro h
    constructor
    · intro hto
      simp only [check_message_timeout, h]
      rw [if_pos hto]
    · intro hto
      simp only [check_message_timeout, h]
      rw [if_neg (by omega)]

/-- C10 witness: the expiry scenario at the concrete queue c10Q, obtained by
applying the theorem with its hypotheses discharged. -/
theorem c10_message_expiry_fifo_witness :
    (check_message_timeout c10Q 3500).messages = [("m2", 1000)] :=
  ((c10_message_expiry_fifo c10Q 3500 0 "m1" [("m2", 1000)]).1.2
    (by decide)).1 (by decide)

/-- C2 counterexample: a push (switch_mode) from a state with one pending
message leaves the message queue non-empty, while the claim requires the
MessageQueue to be empty after any push. -/
theorem c2_switch_mode_keeps_messages :
    (switch_mode c2App Mode.Adding).messages = [("pending notice", 0)]
    ∧ ([("pending notice", 0)] : List (String × Nat)) ≠ [] :=
  ⟨rfl, by decide⟩

/-- C2 (amended): after any switch_mode, and after any prev_mode on a stack of
more than one mode, the hit-test registry is empty, the focus selection is
none and every field buffer is removed, but the message queue is left exactly
as it was (it is not cleared); prev_mode on a one-element stack changes
nothing at all. -/
theorem c2_transition_clears_state_not_messages (a : App) (m : Mode) :
    ((switch_mode a m).buttons = [] ∧ (switch_mode a m).state.inputs = []
      ∧ (switch_mode a m).state.input_state = []
      ∧ (switch_mode a m).state.selected_input = none
      ∧ (switch_mode a m).messages = a.messages)
    ∧ (1 < a.modes.length →
        (prev_mode a).buttons = [] ∧ (prev_mode a).state.inputs = []
          ∧ (prev_mode a).state.input_state = []
          ∧ (prev_mode a).state.selected_input = none
          ∧ (prev_mode a).messages = a.messages)
    ∧ (¬ 1 < a.modes.length → prev_mode a = a) := by
  refine ⟨⟨rfl, rfl, rfl, rfl, rfl⟩, ?_, ?_⟩
  · intro h
    simp [prev_mode, h, clear_state]
  · intro h
    simp [prev_mode, h]

/-- C2 witness: the clearing equalities at a concrete transition, with the
stack-length hypotheses discharged. -/
theorem c2_transition_clears_state_not_messages_witness :
    (prev_mode (switch_mode App.new Mode.Adding)).messages
        = (switch_mode App.new Mode.Adding).messages
    ∧ prev_mode App.new = App.new :=
  ⟨((c2_transition_clears_state_not_messages
      (switch_mode App.new Mode.Adding) Mode.Adding).2.1 (by decide)).2.2.2.2,
    (c2_transition_clears_state_not_messages App.new Mode.Adding).2.2
      (by decide)⟩

/-- C7: on a pointer press, when some registered input region contains the
point the focus becomes that region's field and the click returns before any
button handler runs (the result is exactly the app with only the selection
changed); when no input region contains the point the focus is cleared and
then the handler of a containing button region, if any, is invoked on the
unfocused state. -/
theorem c7_click_focus_before_actions (cr : Boardgame → Except String Int)
    (a : App) (x y now : Nat) :
    ((∃ r k, (r, k) ∈ a.state.inputs ∧ r.contains (x, y) = true) →
      ∃ k r, (r, k) ∈ a.state.inputs ∧ r.contains (x, y) = true ∧
        on_mouse_click cr a x y now = StepOut.ok (set_selected a (some k)))
    ∧ ((∀ r k, (r, k) ∈ a.state.inputs → r.contains (x, y) = false) →
        (∃ f r, (r, f) ∈ a.buttons ∧ r.contains (x, y) = true ∧
          on_mouse_click cr a x y now
            = runAction cr f (set_selected a none) now)
        ∨ ((∀ r f, (r, f) ∈ a.buttons → r.contains (x, y) = false)
            ∧ on_mouse_click cr a x y now
                = StepOut.ok (set_selected a none))) := by
  constructor
  · rintro ⟨r, k, hm, hc⟩
    have hsome := find_input_isSome_of_mem a.state.inputs x y r k hm hc
    cases hfi : find_input a.state.inputs x y with
    | none =>
        rw [hfi] at hsome
        simp at hsome
    | some k2 =>
        obtain ⟨r2, hm2, hc2⟩ := find_input_some_mem _ x y k2 hfi
        exact ⟨k2, r2, hm2, hc2, by simp [on_mouse_click, hfi]⟩
  · intro hnone
    have hfi : find_input a.state.inputs x y = none := by
      cases hfi : find_input a.state.inputs x y with
      | none => rfl
      | some k2 =>
          obtain ⟨r2, hm2, hc2⟩ := find_input_some_mem _ x y k2 hfi
          rw [hnone r2 k2 hm2] at hc2
          cases hc2
    cases hfb : find_button a.buttons x y with
    | some f =>
        obtain ⟨r2, hm2, hc2⟩ := find_button_some_mem _ x y f hfb
        left
        refine ⟨f, r2, hm2, hc2, ?_⟩
        simp [on_mouse_click, set_selected, hfi, hfb]
    | none =>
        right
        refine ⟨find_button_none_forall _ x y hfb, ?_⟩
        simp [on_mouse_click, set_selected, hfi, hfb]

/-- C7 witness: clicking inside the single registered input region of c7App
focuses its field without running any handler. -/
theorem c7_click_focus_before_actions_witness :
    ∃ k r, (r, k) ∈ c7App.state.inputs ∧ r.contains (1, 1) = true ∧
      on_mouse_click crOk c7App 1 1 0 = StepOut.ok (set_selected c7App (some k)) :=
  (c7_click_focus_before_actions crOk c7App 1 1 0).1
    ⟨{ x := 0, y := 0, width := 2, height := 2 }, "Name", by decide, by decide⟩

/-- C8: while a field is focused, a character key appends to its buffer (the
buffer exists afterwards even when it was absent before, created empty first),
Backspace drops the last character (a no-op on an empty buffer), Enter clears
the focus and leaves the buffer content unchanged, and from an empty buffer
typing a, b, Backspace, c yields the buffer ac. -/
theorem c8_focused_editing_keys (a : App) (f : String) (c : Char) (now : Nat)
    (hsel : a.state.selected_input = some f) :
    (getBuf (on_key a (KeyCode.char c) now) f = (getBuf a f).push c
      ∧ (lookupKV (on_key a (KeyCode.char c) now).state.input_state f).isSome
          = true
      ∧ (on_key a (KeyCode.char c) now).state.selected_input = some f)
    ∧ getBuf (on_key a KeyCode.backspace now) f = (getBuf a f).dropRight 1
    ∧ ((on_key a KeyCode.enter now).state.selected_input = none
      ∧ lookupKV (on_key a KeyCode.enter now).state.input_state f
          = some (getBuf a f))
    ∧ getBuf (typeKeys c8App
        [KeyCode.char 'a', KeyCode.char 'b', KeyCode.backspace, KeyCode.char 'c'])
        "Name" = "ac" := by
  refine ⟨⟨?_, ?_, ?_⟩, ?_, ⟨?_, ?_⟩, by decide⟩ <;>
    simp [on_key, hsel, getBuf, lookup_ensure, lookupKV_insert_self]

/-- C8 witness: a character key appends to the focused empty buffer of
c8App. -/
theorem c8_focused_editing_keys_witness :
    getBuf (on_key c8App (KeyCode.char 'z') 0) "Name"
      = (getBuf c8App "Name").push 'z' :=
  (c8_focused_editing_keys c8App "Name" 'z' 0 rfl).1.1

/-- C9 counterexample: Tab is a key other than a character key, Backspace or
Enter, yet pressing it while the Name field of c9App is focused changes
nothing and appends no message, while the claim requires an unhandled-key
message to be appended. -/
theorem c9_tab_sends_no_message :
    on_key c9App KeyCode.tab 7 = c9App
    ∧ (on_key c9App KeyCode.tab 7).messages = [] :=
  ⟨by decide, by decide⟩

/-- C9 (amended): while a field is focused, every key other than a character
key, Backspace, Enter or Tab appends an unhandled-key message and leaves the
buffer content and the focus unchanged; Tab is silently ignored and appends no
message. -/
theorem c9_other_keys_report_unhandled (a : App) (f s : String) (now : Nat)
    (hsel : a.state.selected_input = some f) :
    getBuf (on_key a (KeyCode.other s) now) f = getBuf a f
    ∧ (on_key a (KeyCode.other s) now).messages
        = a.messages ++ [(unhandledMsg (KeyCode.other s), now)]
    ∧ (on_key a (KeyCode.other s) now).state.selected_input = some f
    ∧ (on_key a KeyCode.tab now).messages = a.messages := by
  refine ⟨?_, ?_, ?_, ?_⟩ <;>
    simp [on_key, hsel, getBuf, send_message, lookup_ensure]

/-- C9 witness: an Esc-like key press on the focused c9App appends the
unhandled-key message. -/
theorem c9_other_keys_report_unhandled_witness :
    (on_key c9App (KeyCode.other "Esc") 3).messages
      = c9App.messages ++ [(unhandledMsg (KeyCode.other "Esc"), 3)] :=
  (c9_other_keys_report_unhandled c9App "Name" "Esc" 3 rfl).2.1

/-- C1 counterexample: submitting from the Adding state c1App with all five
buffers parseable and the store succeeding does call create with the parsed
record and does queue the success message, but the mode stack becomes
[Main, Adding, Main] — switch_mode pushes Main — and is not the claimed
[Main]. -/
theorem c1_submit_does_not_pop_to_main :
    add_new_boardgame crOk c1App 0 = StepOut.ok c1Result
    ∧ c1Result.modes = [Mode.Main, Mode.Adding, Mode.Main]
    ∧ c1Result.modes ≠ [Mode.Main]
    ∧ c1Result.created = [c1Bg]
    ∧ c1Result.messages = [(successMsg, 0)] :=
  ⟨by decide, by decide, by decide, by decide, by decide⟩

/-- C1 (amended): for every state in Adding mode in which all five buffers are
present and the numeric ones parse, and the store create succeeds, the submit
action calls create with the parsed record, pushes Main onto the mode stack
(so the stack gains an element and its top is Main — it is not popped back to
[Main]), clears the registry, focus and buffers, and appends the success
message. -/
theorem c1_submit_success_pushes_main
    (cr : Boardgame → Except String Int) (a : App) (now : Nat)
    (nm ds mn mx pt : String) (vmn vmx vpt idv : Int)
    (hmode : get_curr_mode a = some Mode.Adding)
    (h1 : lookupKV a.state.input_state BG_NAME = some nm)
    (h2 : lookupKV a.state.input_state BG_DESCRIPTION = some ds)
    (h3 : lookupKV a.state.input_state BG_MIN_PLAYERS = some mn)
    (h4 : lookupKV a.state.input_state BG_MAX_PLAYERS = some mx)
    (h5 : lookupKV a.state.input_state BG_PLAY_TIME = some pt)
    (p3 : parseI32 mn = Except.ok vmn)
    (p4 : parseI32 mx = Except.ok vmx)
    (p5 : parseI32 pt = Except.ok vpt)
    (hdb : cr (mkBg nm ds vmn vmx vpt) = Except.ok idv) :
    add_new_boardgame cr a now = StepOut.ok
      { modes := a.modes ++ [Mode.Main]
        state :=
          { should_quit := a.state.should_quit
            inputs := []
            input_state := []
            selected_input := none }
        buttons := []
        messages := a.messages ++ [(successMsg, now)]
        cursor := a.cursor
        message_timeout := a.message_timeout
        debug := a.debug
        created := a.created ++ [mkBg nm ds vmn vmx vpt] } := by
  simp only [mkBg] at hdb
  simp [add_new_boardgame, mkBg, h1, h2, h3, h4, h5, p3, p4, p5, hdb,
    switch_mode, clear_state, send_message]

/-- C1 witness: the amended statement applied at the concrete state c1App with
the always-ok store, all hypotheses discharged. -/
theorem c1_submit_success_pushes_main_witness :
    add_new_boardgame crOk c1App 0 = StepOut.ok
      { modes := c1App.modes ++ [Mode.Main]
        state :=
          { should_quit := c1App.state.should_quit
            inputs := []
            input_state := []
            selected_input := none }
        buttons := []
        messages := c1App.messages ++ [(successMsg, 0)]
        cursor := c1App.cursor
        message_timeout := c1App.message_timeout
        debug := c1App.debug
        created := c1App.created ++ [c1Bg] } :=
  c1_submit_success_pushes_main crOk c1App 0 "Catan" "fun game" "3" "4" "60"
    3 4 60 1 rfl rfl rfl rfl rfl rfl rfl rfl rfl rfl

/-- C5 counterexample: from the Adding state c5App holding exactly the name
buffer Catan and the non-numeric min players buffer x, the submit action does
not append a message and stay in Adding — it panics on the absent description
buffer before the min players parse is ever attempted. -/
theorem c5_submit_without_description_panics :
    add_new_boardgame crOk c5App 0 = StepOut.panicked (panicMsg BG_DESCRIPTION) :=
  by decide

/-- C5 (amended): from Adding mode with the name buffer Catan, the description
buffer also present, and the min players buffer holding the non-numeric x, the
submit action appends a message beginning with the text Bad value for which
quotes min players, leaves the mode stack unchanged (still Adding) and leaves
every field buffer unchanged. -/
theorem c5_bad_min_players_reports_message
    (cr : Boardgame → Except String Int) (a : App) (now : Nat) (ds : String)
    (hmode : get_curr_mode a = some Mode.Adding)
    (h1 : lookupKV a.state.input_state BG_NAME = some "Catan")
    (h2 : lookupKV a.state.input_state BG_DESCRIPTION = some ds)
    (h3 : lookupKV a.state.input_state BG_MIN_PLAYERS = some "x") :
    add_new_boardgame cr a now
        = StepOut.ok (send_message a (badValueMsg BG_MIN_PLAYERS invalidDigitMsg) now)
    ∧ (send_message a (badValueMsg BG_MIN_PLAYERS invalidDigitMsg) now).modes
        = a.modes
    ∧ (send_message a (badValueMsg BG_MIN_PLAYERS invalidDigitMsg) now).state.input_state
        = a.state.input_state
    ∧ (send_message a (badValueMsg BG_MIN_PLAYERS invalidDigitMsg) now).messages
        = a.messages ++ [(badValueMsg BG_MIN_PLAYERS invalidDigitMsg, now)]
    ∧ badValueMsg BG_MIN_PLAYERS invalidDigitMsg
        = badValueHead BG_MIN_PLAYERS ++ " " ++ invalidDigitMsg := by
  have hx : parseI32 "x" = Except.error invalidDigitMsg := rfl
  refine ⟨?_, rfl, rfl, rfl, rfl⟩
  simp [add_new_boardgame, h1, h2, h3, hx]

/-- C5 witness: the amended statement applied at the concrete Adding state
with the description buffer present, all hypotheses discharged. -/
theorem c5_bad_min_players_reports_message_witness :
    add_new_boardgame crOk c5AppWithDescription 0
      = StepOut.ok (send_message c5AppWithDescription
          (badValueMsg BG_MIN_PLAYERS invalidDigitMsg) 0) :=
  (c5_bad_min_players_reports_message crOk c5AppWithDescription 0 "fun game"
    (by decide) (by decide) (by decide) (by decide)).1

/-- C3 counterexample: after rendering Main twice with different frame
rectangles (as after a layout change), a point inside only the first frame's
title-button region — contained in neither rectangle of the second frame —
still resolves to the goToQuit handler: the registry holds a region from an
earlier frame, so the render step did not first empty the registry. -/
theorem c3_stale_region_survives_render :
    find_button (render_main { x := 0, y := 2, width := 1, height := 1 }
        { x := 0, y := 3, width := 1, height := 1 } (Except.ok [])
        (render_main { x := 0, y := 0, width := 1, height := 1 }
          { x := 0, y := 1, width := 1, height := 1 } (Except.ok [])
          App.new 0) 0).buttons 0 0
      = some BtnAction.goToQuit
    ∧ Rect.contains { x := 0, y := 2, width := 1, height := 1 } (0, 0) = false
    ∧ Rect.contains { x := 0, y := 3, width := 1, height := 1 } (0, 0) = false :=
  ⟨by decide, by decide, by decide⟩

/-- C3 (amended): the render step does not clear the hit-test registry; each
draw routine only inserts its own regions for the frame (replacing a binding
only at an identical rectangle), so after rendering the registry holds the
regions registered during that frame together with every binding of an earlier
frame at a different rectangle; the registry is emptied only by the mode
transitions (clear_state). -/
theorem c3_render_accumulates_registry
    (a : App) (now : Nat)
    (r1 r2 rb rn rm rx ra qb qy qn r : Rect)
    (lres : Except String (List Boardgame)) :
    ((render_main r1 r2 lres a now).state.inputs = a.state.inputs
      ∧ (r ≠ r1 → r ≠ r2 →
          lookupKV (render_main r1 r2 lres a now).buttons r
            = lookupKV a.buttons r)
      ∧ lookupKV (render_main r1 r2 lres a now).buttons r2
          = some BtnAction.goToAddNew)
    ∧ ((r ≠ rb → r ≠ ra →
          lookupKV (render_adding rb rn rm rx ra a).buttons r
            = lookupKV a.buttons r)
      ∧ (r ≠ rn → r ≠ rm → r ≠ rx →
          lookupKV (render_adding rb rn rm rx ra a).state.inputs r
            = lookupKV a.state.inputs r)
      ∧ lookupKV (render_adding rb rn rm rx ra a).buttons ra
          = some BtnAction.addNewBoardgame
      ∧ lookupKV (render_adding rb rn rm rx ra a).state.inputs rx
          = some "Max players")
    ∧ (r ≠ qb → r ≠ qy → r ≠ qn →
        lookupKV (render_quitting qb qy qn a).buttons r
          = lookupKV a.buttons r) := by
  have hbm : (render_main r1 r2 lres a now).buttons
      = insertKV (insertKV a.buttons r1 BtnAction.goToQuit) r2
          BtnAction.goToAddNew := by
    cases lres <;>
      simp [render_main, add_title, add_button, get_boardgames, send_message]
  have him : (render_main r1 r2 lres a now).state.inputs = a.state.inputs := by
    cases lres <;>
      simp [render_main, add_title, add_button, get_boardgames, send_message]
  have hba : (render_adding rb rn rm rx ra a).buttons
      = insertKV (insertKV a.buttons rb BtnAction.prevMode) ra
          BtnAction.addNewBoardgame := by
    simp [render_adding, add_title, add_button, add_input]
  have hia : (render_adding rb rn rm rx ra a).state.inputs
      = insertKV (insertKV (insertKV a.state.inputs rn "Name") rm
          "Min players") rx "Max players" := by
    simp [render_adding, add_title, add_button, add_input]
  have hbq : (render_quitting qb qy qn a).buttons
      = insertKV (insertKV (insertKV a.buttons qb BtnAction.prevMode) qy
          BtnAction.quit) qn BtnAction.prevMode := by
    simp [render_quitting, add_title, add_button]
  refine ⟨⟨him, ?_, ?_⟩, ⟨?_, ?_, ?_, ?_⟩, ?_⟩
  · intro h1 h2
    rw [hbm, lookupKV_insert_ne _ _ _ _ h2, lookupKV_insert_ne _ _ _ _ h1]
  · rw [hbm, lookupKV_insert_self]
  · intro h1 h2
    rw [hba, lookupKV_insert_ne _ _ _ _ h2, lookupKV_insert_ne _ _ _ _ h1]
  · intro h1 h2 h3
    rw [hia, lookupKV_insert_ne _ _ _ _ h3, lookupKV_insert_ne _ _ _ _ h2,
      lookupKV_insert_ne _ _ _ _ h1]
  · rw [hba, lookupKV_insert_self]
  · rw [hia, lookupKV_insert_self]
  · intro h1 h2 h3
    rw [hbq, lookupKV_insert_ne _ _ _ _ h3, lookupKV_insert_ne _ _ _ _ h2,
      lookupKV_insert_ne _ _ _ _ h1]

/-- C3 witness: a binding at a rectangle outside the frame of a concrete Main
render survives the render unchanged, with the inequality hypotheses
discharged. -/
theorem c3_render_accumulates_registry_witness :
    lookupKV (render_main { x := 0, y := 2, width := 1, height := 1 }
        { x := 0, y := 3, width := 1, height := 1 } (Except.ok [])
        App.new 0).buttons { x := 5, y := 5, width := 1, height := 1 }
      = lookupKV App.new.buttons { x := 5, y := 5, width := 1, height := 1 } :=
  (c3_render_accumulates_registry App.new 0
      { x := 0, y := 2, width := 1, height := 1 }
      { x := 0, y := 3, width := 1, height := 1 }
      { x := 0, y := 0, width := 1, height := 1 }
      { x := 0, y := 0, width := 1, height := 1 }
      { x := 0, y := 0, width := 1, height := 1 }
      { x := 0, y := 0, width := 1, height := 1 }
      { x := 0, y := 0, width := 1, height := 1 }
      { x := 0, y := 0, width := 1, height := 1 }
      { x := 0, y := 0, width := 1, height := 1 }
      { x := 0, y := 0, width := 1, height := 1 }
      { x := 5, y := 5, width := 1, height := 1 }
      (Except.ok [])).1.2.1 (by decide) (by decide)

/-- C4: for every store and clock there is a reachable engine state in Adding
mode — reached by rendering Main, clicking the Add Boardgame button, and
rendering the Adding screen, which registers input regions only for Name, Min
players and Max players — in which clicking the registered submit button (and
equally invoking add_new_boardgame directly) panics through expect on the
missing name buffer instead of reporting a message. -/
theorem c4_reachable_adding_submit_panics
    (cr : Boardgame → Except String Int) (now : Nat) :
    ∃ a : App, Reachable cr a ∧ get_curr_mode a = some Mode.Adding
      ∧ ∃ x y msg, on_mouse_click cr a x y now = StepOut.panicked msg
        ∧ add_new_boardgame cr a now = StepOut.panicked msg := by
  refine ⟨c4Rendered, ?_, rfl, 0, 4, panicMsg BG_NAME, rfl, rfl⟩
  have h1 : Step cr App.new c4AfterMain :=
    Step.renderMain App.new 0 { x := 9, y := 9, width := 1, height := 1 }
      { x := 0, y := 0, width := 1, height := 1 } (Except.ok []) rfl
  have h2 : Step cr c4AfterMain c4Adding :=
    Step.mouse c4AfterMain c4Adding 0 0 0 rfl
  have h3 : Step cr c4Adding c4Rendered :=
    Step.renderAdding c4Adding { x := 20, y := 0, width := 1, height := 1 }
      { x := 0, y := 1, width := 1, height := 1 }
      { x := 0, y := 2, width := 1, height := 1 }
      { x := 0, y := 3, width := 1, height := 1 }
      { x := 0, y := 4, width := 1, height := 1 } rfl
  exact Reachable.step _ _
    (Reachable.step _ _ (Reachable.step _ _ Reachable.init h1) h2) h3
